import Mathlib

/-!
Shallow embedding of the DHT12 IIO driver (src/dht12.c).

The bus environment of one `dht12_read_data` call is a `Bus` record: the
return values of `i2c_master_send` and `i2c_master_recv` and the five bytes
the receive deposits in `rx_buf`.  Each driver function is embedded as a
pure Lean function that also emits a trace of `Event`s (mutex operations,
bus operations, delays, checksum check, decode, capture-buffer assembly,
buffer push, trigger acknowledgement), so that locking discipline and
transaction counts are statable.
-/

/-- Truncation to an unsigned byte, as C `u8` arithmetic does. -/
def u8 (n : Nat) : Nat := n % 256

/-- Wrap an integer to a signed 16-bit value, as C assignment to `s16` does. -/
def toS16 (n : Int) : Int := (n + 32768) % 65536 - 32768

/-- Linux error number `EIO_code`. -/
def EIO_code : Int := 5

/-- Linux error number `EINVAL`. -/
def EINVAL : Int := 22

/-- IIO return code `IIO_VAL_INT`. -/
def IIO_VAL_INT : Int := 1

/-- Interrupt-handler return code `IRQ_HANDLED`. -/
def IRQ_HANDLED : Int := 1

/-- `GENMASK(1, 0)`: both channel bits set. -/
def DHT12_ALL_CHANNEL_MASK : Nat := 3

/-- The environment one `dht12_read_data` call observes on the i2c bus:
the return value of `i2c_master_send`, the return value of
`i2c_master_recv`, and the five bytes the receive writes into `rx_buf`
(humidity MSB, humidity LSB, temperature MSB, temperature LSB, checksum). -/
structure Bus where
  sendRet : Int
  recvRet : Int
  r0 : Nat
  r1 : Nat
  r2 : Nat
  r3 : Nat
  r4 : Nat

/-- Received bytes are bytes: each `rx_buf` cell is a C `u8`. -/
def Bus.Wf (bus : Bus) : Prop :=
  bus.r0 < 256 ∧ bus.r1 < 256 ∧ bus.r2 < 256 ∧ bus.r3 < 256 ∧ bus.r4 < 256

/-- Decoded sensor values, `struct dht12_sensor_data` (`s16` fields). -/
structure SensorData where
  hum_data : Int
  temp_data : Int
deriving DecidableEq

/-- Observable events of a driver call. -/
inductive Event where
  | lock : Event
  | unlock : Event
  | send : List Nat → Event
  | sleep : Nat → Nat → Event
  | recv : Nat → Event
  | checksum : Bool → Event
  | decode : Event
  | assemble : List Int → Event
  | push : List Int → Int → Event
  | notifyDone : Event
deriving DecidableEq

/-- `dht12_read_data` (src/dht12.c lines 53-89): lock, send the one-byte
command `0x00`, sleep 10000-20000 us, receive 5 bytes, sleep again, unlock,
then check the checksum and decode.  Returns the C return value, the
decoded data if any (the out-parameter is written only on full success),
and the event trace. -/
def dht12_read_data (bus : Bus) : Int × Option SensorData × List Event :=
  if bus.sendRet < 0 then
    (bus.sendRet, none, [Event.lock, Event.send [0], Event.unlock])
  else if bus.recvRet < 0 then
    (bus.recvRet, none,
      [Event.lock, Event.send [0], Event.sleep 10000 20000, Event.recv 5,
       Event.unlock])
  else
    let crc := u8 (bus.r0 + bus.r1 + bus.r2 + bus.r3)
    let base := [Event.lock, Event.send [0], Event.sleep 10000 20000,
                 Event.recv 5, Event.sleep 10000 20000, Event.unlock]
    if crc ≠ bus.r4 then
      (-EIO_code, none, base ++ [Event.checksum false])
    else
      (bus.recvRet,
       some ⟨toS16 (bus.r0 * 100 + bus.r1), toS16 (bus.r2 * 100 + bus.r3)⟩,
       base ++ [Event.checksum true, Event.decode])

/-- `for_each_set_bit(bit, mask, len)`: the set bit positions below `len`,
in ascending order. -/
def forEachSetBit (mask len : Nat) : List Nat :=
  (List.range len).filter fun b => Nat.testBit mask b

/-- The capture-buffer fill of `dht12_trigger_handler` (lines 107-118):
on the full mask copy humidity then temperature; otherwise one slot per
set bit of the scan mask, in ascending bit order, bit 0 taking humidity
and any other bit temperature.  The result lists the populated slots. -/
def dht12_fill_buffer (sd : SensorData) (mask len : Nat) : List Int :=
  if mask = DHT12_ALL_CHANNEL_MASK then
    [sd.hum_data, sd.temp_data]
  else
    (forEachSetBit mask len).map fun bit =>
      if bit ≠ 0 then sd.temp_data else sd.hum_data

/-- The tail of the trigger handler after the two reads: what it does with
the outcome of the second read only (no push on failure; otherwise lock,
fill the buffer, unlock, push with timestamp; always acknowledge). -/
def handlerTail (bus2 : Bus) (mask len : Nat) (ts : Int) : List Event :=
  let r2 := dht12_read_data bus2
  if r2.1 < 0 then
    [Event.notifyDone]
  else
    let sd := r2.2.1.getD ⟨0, 0⟩
    let buf := dht12_fill_buffer sd mask len
    [Event.lock, Event.assemble buf, Event.unlock, Event.push buf ts,
     Event.notifyDone]

/-- `dht12_trigger_handler` (lines 91-125): read twice, discard the first
result, act on the second; on its failure skip the push; always notify the
trigger and return `IRQ_HANDLED`. -/
def dht12_trigger_handler (bus1 bus2 : Bus) (mask len : Nat) (ts : Int) :
    Int × List Event :=
  let r1 := dht12_read_data bus1
  let r2 := dht12_read_data bus2
  let tr := r1.2.2 ++ r2.2.2
  if r2.1 < 0 then
    (IRQ_HANDLED, tr ++ [Event.notifyDone])
  else
    let sd := r2.2.1.getD ⟨0, 0⟩
    let buf := dht12_fill_buffer sd mask len
    (IRQ_HANDLED,
     tr ++ [Event.lock, Event.assemble buf, Event.unlock, Event.push buf ts,
            Event.notifyDone])

/-- The channel a direct read is keyed by (`chan->type`). -/
inductive ChanType where
  | humidityrelative : ChanType
  | temp : ChanType
deriving DecidableEq

/-- `IIO_CHAN_INFO_RAW` selector value. -/
def IIO_CHAN_INFO_RAW : Nat := 0

/-- `IIO_CHAN_INFO_SCALE` selector value. -/
def IIO_CHAN_INFO_SCALE : Nat := 2

/-- `dht12_read_raw` (lines 127-149).  `val` is the value behind the `val`
out-pointer before the call; the result is the C return value, the value
behind the out-pointer after the call, and the event trace. -/
def dht12_read_raw (bus : Bus) (chanType : ChanType) (val : Int)
    (mask : Nat) : Int × Int × List Event :=
  if mask = IIO_CHAN_INFO_RAW then
    let r := dht12_read_data bus
    if r.1 < 0 then
      (r.1, val, r.2.2)
    else
      let sd := r.2.1.getD ⟨0, 0⟩
      (IIO_VAL_INT,
       (if chanType = ChanType.humidityrelative then sd.hum_data
        else sd.temp_data),
       r.2.2)
  else if mask = IIO_CHAN_INFO_SCALE then
    (IIO_VAL_INT, 100, [])
  else
    (-EINVAL, val, [])

/-- Each trace event paired with the mutex depth at which it executes
(`lock` and `unlock` themselves are shown at the outer depth). -/
def withDepth : Nat → List Event → List (Nat × Event)
  | _, [] => []
  | d, Event.lock :: es => (d, Event.lock) :: withDepth (d + 1) es
  | d, Event.unlock :: es => (d - 1, Event.unlock) :: withDepth (d - 1) es
  | d, e :: es => (d, e) :: withDepth d es

/-- Events the spec requires to run outside the lock: checksum check,
decode, capture-buffer assembly. -/
def isWork : Event → Bool
  | Event.checksum _ => true
  | Event.decode => true
  | Event.assemble _ => true
  | _ => false

/-- Events the code executes while holding the mutex: bus operations, the
settling delays, and the capture-buffer assembly. -/
def heldEvent : Event → Bool
  | Event.send _ => true
  | Event.recv _ => true
  | Event.sleep _ _ => true
  | Event.assemble _ => true
  | _ => false

/-- Does every checksum / decode / assembly event of a trace execute at
mutex depth zero?  (The locking discipline claim, as a boolean check.) -/
def workUnlocked (tr : List Event) : Bool :=
  (withDepth 0 tr).all fun p => !(isWork p.2) || p.1 == 0

/-- Is each event of a trace at mutex depth one exactly when it is a bus
operation, a settling delay, or the capture-buffer assembly, and at depth
zero otherwise? -/
def depthsDisciplined (tr : List Event) : Bool :=
  (withDepth 0 tr).all fun p => p.1 == (if heldEvent p.2 then 1 else 0)

/-- Number of bus send operations in a trace. -/
def countSends (tr : List Event) : Nat :=
  tr.countP fun e => match e with
    | Event.send _ => true
    | _ => false

/-- Number of buffer pushes in a trace. -/
def countPushes (tr : List Event) : Nat :=
  tr.countP fun e => match e with
    | Event.push _ _ => true
    | _ => false

/-- A bus interaction on which everything succeeds: send returns 1,
receive returns 5, and the frame 23 45 26 50 has the correct checksum
144. -/
def goodBus : Bus := ⟨1, 5, 23, 45, 26, 50, 144⟩

/-- A bus interaction whose transfer succeeds but whose frame has a wrong
checksum byte. -/
def badChkBus : Bus := ⟨1, 5, 23, 45, 26, 50, 0⟩

/-- A bus interaction whose send fails with `-EIO_code`. -/
def sendFailBus : Bus := ⟨-5, 5, 23, 45, 26, 50, 144⟩

/-! ### Helper lemmas -/

theorem toS16_eq_self (n : Int) (h0 : 0 ≤ n) (h1 : n < 32768) : toS16 n = n := by
  unfold toS16
  omega

theorem countSends_read_data (bus : Bus) :
    countSends (dht12_read_data bus).2.2 = 1 := by
  unfold dht12_read_data
  split_ifs with h1 h2
  · simp [countSends]
  · simp [countSends]
  · by_cases hc : u8 (bus.r0 + bus.r1 + bus.r2 + bus.r3) = bus.r4 <;>
      simp [hc, countSends]

/-- Claim C1: for every received 5-byte frame (both bus phases succeeded),
the checksum validation succeeds, producing a decoded reading, exactly when
the fifth byte equals the sum of the first four bytes modulo 256; on a
mismatch the call returns the data-integrity error `-EIO` and no reading. -/
theorem C1_checksum (bus : Bus) (hs : 0 ≤ bus.sendRet) (hr : 0 ≤ bus.recvRet) :
    ((dht12_read_data bus).2.1.isSome ↔
      u8 (bus.r0 + bus.r1 + bus.r2 + bus.r3) = bus.r4) ∧
    (u8 (bus.r0 + bus.r1 + bus.r2 + bus.r3) ≠ bus.r4 →
      (dht12_read_data bus).1 = -EIO_code ∧ (dht12_read_data bus).2.1 = none) := by
  unfold dht12_read_data
  rw [if_neg (by omega), if_neg (by omega)]
  by_cases hc : u8 (bus.r0 + bus.r1 + bus.r2 + bus.r3) = bus.r4 <;>
    simp [hc]

theorem C1_witness :
    (0 ≤ goodBus.sendRet ∧ 0 ≤ goodBus.recvRet) ∧
    (((dht12_read_data goodBus).2.1.isSome ↔
        u8 (goodBus.r0 + goodBus.r1 + goodBus.r2 + goodBus.r3) = goodBus.r4) ∧
     (u8 (goodBus.r0 + goodBus.r1 + goodBus.r2 + goodBus.r3) ≠ goodBus.r4 →
        (dht12_read_data goodBus).1 = -EIO_code ∧
        (dht12_read_data goodBus).2.1 = none)) :=
  ⟨⟨by decide, by decide⟩, C1_checksum goodBus (by decide) (by decide)⟩

instance (bus : Bus) : Decidable bus.Wf := by
  unfold Bus.Wf
  infer_instance

/-- Claim C2: for every frame whose bytes lie in [0,255] (and whose
transfer and checksum succeeded, so that decode runs), the decoded reading
is exactly humidity = frame[0]*100 + frame[1] and temperature =
frame[2]*100 + frame[3]: the signed 16-bit assignment neither clamps,
wraps, nor special-cases any byte value, because the largest possible
product 255*100 + 255 fits in a signed 16-bit value. -/
theorem C2_decode (bus : Bus) (hs : 0 ≤ bus.sendRet) (hr : 0 ≤ bus.recvRet)
    (hwf : bus.Wf)
    (hc : u8 (bus.r0 + bus.r1 + bus.r2 + bus.r3) = bus.r4) :
    (dht12_read_data bus).2.1 =
      some ⟨(bus.r0 : Int) * 100 + bus.r1, (bus.r2 : Int) * 100 + bus.r3⟩ := by
  obtain ⟨h0, h1, h2, h3, h4⟩ := hwf
  unfold dht12_read_data
  rw [if_neg (by omega), if_neg (by omega)]
  simp [hc]
  refine ⟨toS16_eq_self _ ?_ ?_, toS16_eq_self _ ?_ ?_⟩ <;> omega

theorem C2_witness :
    (0 ≤ goodBus.sendRet ∧ 0 ≤ goodBus.recvRet ∧ goodBus.Wf ∧
      u8 (goodBus.r0 + goodBus.r1 + goodBus.r2 + goodBus.r3) = goodBus.r4) ∧
    (dht12_read_data goodBus).2.1 =
      some ⟨(goodBus.r0 : Int) * 100 + goodBus.r1,
            (goodBus.r2 : Int) * 100 + goodBus.r3⟩ :=
  ⟨⟨by decide, by decide, by decide, by decide⟩,
   C2_decode goodBus (by decide) (by decide) (by decide) (by decide)⟩

theorem countSends_append (a b : List Event) :
    countSends (a ++ b) = countSends a + countSends b := by
  simp [countSends, List.countP_append]

theorem countPushes_append (a b : List Event) :
    countPushes (a ++ b) = countPushes a + countPushes b := by
  simp [countPushes, List.countP_append]

theorem countPushes_read_data (bus : Bus) :
    countPushes (dht12_read_data bus).2.2 = 0 := by
  unfold dht12_read_data
  split_ifs with h1 h2
  · simp [countPushes]
  · simp [countPushes]
  · by_cases hc : u8 (bus.r0 + bus.r1 + bus.r2 + bus.r3) = bus.r4 <;>
      simp [hc, countPushes]

theorem countSends_handlerTail (bus2 : Bus) (mask len : Nat) (ts : Int) :
    countSends (handlerTail bus2 mask len ts) = 0 := by
  unfold handlerTail
  by_cases h : (dht12_read_data bus2).1 < 0 <;> simp [h, countSends]

theorem handler_trace_eq (bus1 bus2 : Bus) (mask len : Nat) (ts : Int) :
    (dht12_trigger_handler bus1 bus2 mask len ts).2 =
      (dht12_read_data bus1).2.2 ++ ((dht12_read_data bus2).2.2 ++
        handlerTail bus2 mask len ts) := by
  unfold dht12_trigger_handler handlerTail
  by_cases h : (dht12_read_data bus2).1 < 0 <;> simp [h]

/-- Claim C3: each trigger firing runs exactly two bus transactions, one
per `dht12_read_data` call: the handler trace is the two read traces in
sequence followed by a tail, the tail contains no bus send, the whole
trace contains exactly two bus sends, and the tail — everything the
handler does with the data, including whether anything is pushed — is a
function of the second bus interaction only, so the first read's result,
errors included, is discarded unconditionally. -/
theorem C3_double_read (bus1 bus2 : Bus) (mask len : Nat) (ts : Int) :
    (dht12_trigger_handler bus1 bus2 mask len ts).2 =
      (dht12_read_data bus1).2.2 ++ ((dht12_read_data bus2).2.2 ++
        handlerTail bus2 mask len ts) ∧
    countSends (dht12_trigger_handler bus1 bus2 mask len ts).2 = 2 ∧
    countSends (handlerTail bus2 mask len ts) = 0 := by
  refine ⟨handler_trace_eq bus1 bus2 mask len ts, ?_,
    countSends_handlerTail bus2 mask len ts⟩
  rw [handler_trace_eq, countSends_append, countSends_append,
      countSends_read_data, countSends_read_data, countSends_handlerTail]

/-- Claim C6: whenever the second read of a trigger firing fails (bus
error or checksum mismatch, i.e. a negative return), the handler pushes
nothing to the buffered-capture consumer, still acknowledges the trigger
as done as its final action, and returns `IRQ_HANDLED` exactly as on
success, so the failure is not propagated to any caller. -/
theorem C6_second_fail (bus1 bus2 : Bus) (mask len : Nat) (ts : Int)
    (h : (dht12_read_data bus2).1 < 0) :
    (dht12_trigger_handler bus1 bus2 mask len ts).1 = IRQ_HANDLED ∧
    countPushes (dht12_trigger_handler bus1 bus2 mask len ts).2 = 0 ∧
    (dht12_trigger_handler bus1 bus2 mask len ts).2.getLast? =
      some Event.notifyDone := by
  have e : (dht12_trigger_handler bus1 bus2 mask len ts).2 =
      ((dht12_read_data bus1).2.2 ++ (dht12_read_data bus2).2.2) ++
        [Event.notifyDone] := by
    unfold dht12_trigger_handler
    simp [h]
  have e1 : (dht12_trigger_handler bus1 bus2 mask len ts).1 = IRQ_HANDLED := by
    unfold dht12_trigger_handler
    simp [h]
  refine ⟨e1, ?_, ?_⟩
  · rw [e, countPushes_append, countPushes_append, countPushes_read_data,
        countPushes_read_data]
    rfl
  · rw [e, List.getLast?_concat]

theorem C6_witness :
    (dht12_read_data badChkBus).1 < 0 ∧
    ((dht12_trigger_handler goodBus badChkBus 3 2 0).1 = IRQ_HANDLED ∧
     countPushes (dht12_trigger_handler goodBus badChkBus 3 2 0).2 = 0 ∧
     (dht12_trigger_handler goodBus badChkBus 3 2 0).2.getLast? =
       some Event.notifyDone) :=
  ⟨by decide, C6_second_fail goodBus badChkBus 3 2 0 (by decide)⟩

/-- Claim C4: on the full two-channel mask the buffer is humidity at slot 0
and temperature at slot 1; on any other mask the populated slots are, in
ascending order of the set bits of the mask (below the mask length), the
humidity reading for bit 0 and the temperature reading for any other bit,
so the number of populated slots equals the number of set bits. -/
theorem C4_projection (sd : SensorData) (mask len : Nat) :
    (mask = DHT12_ALL_CHANNEL_MASK →
      dht12_fill_buffer sd mask len = [sd.hum_data, sd.temp_data]) ∧
    (mask ≠ DHT12_ALL_CHANNEL_MASK →
      dht12_fill_buffer sd mask len =
        (forEachSetBit mask len).map
          (fun bit => if bit = 0 then sd.hum_data else sd.temp_data) ∧
      (dht12_fill_buffer sd mask len).length =
        (List.range len).countP (fun b => Nat.testBit mask b) ∧
      List.Sorted (· < ·) (forEachSetBit mask len) ∧
      (∀ b ∈ forEachSetBit mask len, Nat.testBit mask b = true)) := by
  constructor
  · intro h
    simp [dht12_fill_buffer, h]
  · intro h
    refine ⟨?_, ?_, ?_, ?_⟩
    · have hf : (fun bit => if bit ≠ 0 then sd.temp_data else sd.hum_data) =
          (fun bit => if bit = 0 then sd.hum_data else sd.temp_data) := by
        funext bit
        by_cases hb : bit = 0 <;> simp [hb]
      simp [dht12_fill_buffer, h, hf]
    · simp [dht12_fill_buffer, h, forEachSetBit, List.countP_eq_length_filter]
    · unfold forEachSetBit
      exact (List.sorted_lt_range len).filter _
    · intro b hb
      unfold forEachSetBit at hb
      simp [List.mem_filter] at hb
      exact hb.2

theorem C4_witness :
    ((3 : Nat) = DHT12_ALL_CHANNEL_MASK ∧
      dht12_fill_buffer ⟨2345, 2650⟩ 3 2 = [(2345 : Int), 2650]) ∧
    ((2 : Nat) ≠ DHT12_ALL_CHANNEL_MASK ∧
      dht12_fill_buffer ⟨2345, 2650⟩ 2 2 =
        (forEachSetBit 2 2).map
          (fun bit => if bit = 0 then (2345 : Int) else 2650)) :=
  ⟨⟨by decide, (C4_projection ⟨2345, 2650⟩ 3 2).1 (by decide)⟩,
   ⟨by decide, ((C4_projection ⟨2345, 2650⟩ 2 2).2 (by decide)).1⟩⟩

theorem read_data_trace_cases (bus : Bus) :
    (dht12_read_data bus).2.2 = [Event.lock, Event.send [0], Event.unlock] ∨
    (dht12_read_data bus).2.2 =
      [Event.lock, Event.send [0], Event.sleep 10000 20000, Event.recv 5,
       Event.unlock] ∨
    (dht12_read_data bus).2.2 =
      [Event.lock, Event.send [0], Event.sleep 10000 20000, Event.recv 5,
       Event.sleep 10000 20000, Event.unlock, Event.checksum false] ∨
    (dht12_read_data bus).2.2 =
      [Event.lock, Event.send [0], Event.sleep 10000 20000, Event.recv 5,
       Event.sleep 10000 20000, Event.unlock, Event.checksum true,
       Event.decode] := by
  unfold dht12_read_data
  split_ifs with h1 h2
  · left
    rfl
  · right
    left
    rfl
  · by_cases hc : u8 (bus.r0 + bus.r1 + bus.r2 + bus.r3) = bus.r4
    · right
      right
      right
      simp [hc]
    · right
      right
      left
      simp [hc]

theorem handlerTail_cases (bus2 : Bus) (mask len : Nat) (ts : Int) :
    handlerTail bus2 mask len ts = [Event.notifyDone] ∨
    ∃ buf, handlerTail bus2 mask len ts =
      [Event.lock, Event.assemble buf, Event.unlock, Event.push buf ts,
       Event.notifyDone] := by
  unfold handlerTail
  by_cases h : (dht12_read_data bus2).1 < 0
  · left
    simp [h]
  · right
    refine ⟨dht12_fill_buffer ((dht12_read_data bus2).2.1.getD ⟨0, 0⟩) mask len,
      ?_⟩
    simp [h]

theorem depthsDisciplined_read_data (bus : Bus) :
    depthsDisciplined (dht12_read_data bus).2.2 = true := by
  rcases read_data_trace_cases bus with h | h | h | h <;> rw [h] <;> decide

/-- Claim C5 is false on the code at a concrete input: in a fully
successful trigger firing (healthy bus, valid checksum, full channel
mask) the capture-buffer assembly executes while the mutex is held,
because `dht12_trigger_handler` re-acquires `data->lock` around the
buffer fill, so it is not the case that checksum check, decode, and
capture-buffer assembly all run outside the lock. -/
theorem C5_counterexample :
    workUnlocked (dht12_trigger_handler goodBus goodBus 3 2 0).2 = false := by
  decide

/-- Claim C5 (amended): the lock is held exactly across the bus send, the
two settling delays, and the receive — so the checksum check and decode of
every sampling operation run outside the lock, as does the buffer push —
but the trigger handler re-acquires the same lock around the
capture-buffer assembly, which therefore runs at mutex depth one, not
outside the lock. -/
theorem C5_locking (bus1 bus2 : Bus) (mask len : Nat) (ts : Int) :
    depthsDisciplined (dht12_read_data bus1).2.2 = true ∧
    depthsDisciplined (dht12_trigger_handler bus1 bus2 mask len ts).2 = true := by
  refine ⟨depthsDisciplined_read_data bus1, ?_⟩
  rw [handler_trace_eq]
  rcases read_data_trace_cases bus1 with h1 | h1 | h1 | h1 <;>
    rcases read_data_trace_cases bus2 with h2 | h2 | h2 | h2 <;>
    rcases handlerTail_cases bus2 mask len ts with h3 | ⟨buf, h3⟩ <;>
    rw [h1, h2, h3] <;>
    simp [depthsDisciplined, withDepth, heldEvent]

theorem read_data_sendfail (bus : Bus) (h : bus.sendRet < 0) :
    (dht12_read_data bus).1 = bus.sendRet := by
  unfold dht12_read_data
  rw [if_pos h]

theorem read_data_badchk (bus : Bus) (hs : 0 ≤ bus.sendRet)
    (hr : 0 ≤ bus.recvRet)
    (hc : u8 (bus.r0 + bus.r1 + bus.r2 + bus.r3) ≠ bus.r4) :
    (dht12_read_data bus).1 = -EIO_code := by
  unfold dht12_read_data
  rw [if_neg (by omega), if_neg (by omega)]
  simp [hc]

theorem read_data_ok (bus : Bus) (hs : 0 ≤ bus.sendRet) (hr : 0 ≤ bus.recvRet)
    (hc : u8 (bus.r0 + bus.r1 + bus.r2 + bus.r3) = bus.r4) :
    dht12_read_data bus =
      (bus.recvRet,
       some ⟨toS16 (bus.r0 * 100 + bus.r1), toS16 (bus.r2 * 100 + bus.r3)⟩,
       [Event.lock, Event.send [0], Event.sleep 10000 20000, Event.recv 5,
        Event.sleep 10000 20000, Event.unlock, Event.checksum true,
        Event.decode]) := by
  unfold dht12_read_data
  rw [if_neg (by omega), if_neg (by omega)]
  simp [hc]

theorem read_raw_raw_trace (bus : Bus) (chan : ChanType) (val : Int) :
    (dht12_read_raw bus chan val IIO_CHAN_INFO_RAW).2.2 =
      (dht12_read_data bus).2.2 := by
  unfold dht12_read_raw
  by_cases h : (dht12_read_data bus).1 < 0 <;> simp [h]

theorem read_raw_raw_err (bus : Bus) (chan : ChanType) (val : Int)
    (h : (dht12_read_data bus).1 < 0) :
    (dht12_read_raw bus chan val IIO_CHAN_INFO_RAW).1 =
      (dht12_read_data bus).1 := by
  unfold dht12_read_raw
  simp [h]

/-- Claim C7: a direct RAW read performs exactly one bus transaction (one
send in its trace); on every error path, any selector included, the value
behind the caller's out-pointer is left unchanged; and in particular when
the single transaction's checksum check fails the read returns `-EIO` and
writes no reading at all. -/
theorem C7_direct_read (bus : Bus) (chan : ChanType) (val : Int) (mask : Nat) :
    countSends (dht12_read_raw bus chan val IIO_CHAN_INFO_RAW).2.2 = 1 ∧
    ((dht12_read_raw bus chan val mask).1 < 0 →
      (dht12_read_raw bus chan val mask).2.1 = val) ∧
    (0 ≤ bus.sendRet → 0 ≤ bus.recvRet →
      u8 (bus.r0 + bus.r1 + bus.r2 + bus.r3) ≠ bus.r4 →
      (dht12_read_raw bus chan val IIO_CHAN_INFO_RAW).1 = -EIO_code ∧
      (dht12_read_raw bus chan val IIO_CHAN_INFO_RAW).2.1 = val) := by
  refine ⟨?_, ?_, ?_⟩
  · rw [read_raw_raw_trace, countSends_read_data]
  · intro hlt
    unfold dht12_read_raw at hlt ⊢
    by_cases m0 : mask = IIO_CHAN_INFO_RAW
    · rw [if_pos m0] at hlt ⊢
      by_cases h : (dht12_read_data bus).1 < 0
      · simp [h]
      · simp [h] at hlt
        norm_num [IIO_VAL_INT] at hlt
    · rw [if_neg m0] at hlt ⊢
      by_cases m2 : mask = IIO_CHAN_INFO_SCALE
      · rw [if_pos m2] at hlt
        norm_num [IIO_VAL_INT] at hlt
      · rw [if_neg m2]
  · intro hs hr hc
    have hb := read_data_badchk bus hs hr hc
    have hlt : (dht12_read_data bus).1 < 0 := by
      rw [hb]
      norm_num [EIO_code]
    refine ⟨?_, ?_⟩
    · rw [read_raw_raw_err bus chan val hlt, hb]
    · unfold dht12_read_raw
      simp [hlt]

theorem C7_witness :
    (dht12_read_raw badChkBus ChanType.temp 77 IIO_CHAN_INFO_RAW).1 < 0 ∧
    (dht12_read_raw badChkBus ChanType.temp 77 IIO_CHAN_INFO_RAW).2.1 = 77 ∧
    0 ≤ badChkBus.sendRet ∧ 0 ≤ badChkBus.recvRet ∧
    u8 (badChkBus.r0 + badChkBus.r1 + badChkBus.r2 + badChkBus.r3) ≠
      badChkBus.r4 ∧
    countSends (dht12_read_raw badChkBus ChanType.temp 77
      IIO_CHAN_INFO_RAW).2.2 = 1 ∧
    (dht12_read_raw badChkBus ChanType.temp 77 IIO_CHAN_INFO_RAW).1 =
      -EIO_code :=
  ⟨by decide,
   (C7_direct_read badChkBus ChanType.temp 77 IIO_CHAN_INFO_RAW).2.1
     (by decide),
   by decide, by decide, by decide,
   (C7_direct_read badChkBus ChanType.temp 77 IIO_CHAN_INFO_RAW).1,
   ((C7_direct_read badChkBus ChanType.temp 77 IIO_CHAN_INFO_RAW).2.2
     (by decide) (by decide) (by decide)).1⟩

/-- Claim C8: the bus transaction sends the single command byte 0, then
receives exactly 5 bytes, with a 10000-20000 us settling delay after the
send and another after the receive; a failed send aborts immediately (no
receive, no delay) and a failed receive aborts before the second delay,
each propagating the bus error code unchanged with no retry. -/
theorem C8_protocol (bus : Bus) :
    (bus.sendRet < 0 →
      (dht12_read_data bus).1 = bus.sendRet ∧
      (dht12_read_data bus).2.2 = [Event.lock, Event.send [0],
        Event.unlock]) ∧
    (0 ≤ bus.sendRet → bus.recvRet < 0 →
      (dht12_read_data bus).1 = bus.recvRet ∧
      (dht12_read_data bus).2.2 =
        [Event.lock, Event.send [0], Event.sleep 10000 20000, Event.recv 5,
         Event.unlock]) ∧
    (0 ≤ bus.sendRet → 0 ≤ bus.recvRet →
      (dht12_read_data bus).2.2.take 6 =
        [Event.lock, Event.send [0], Event.sleep 10000 20000, Event.recv 5,
         Event.sleep 10000 20000, Event.unlock]) := by
  refine ⟨?_, ?_, ?_⟩
  · intro h
    unfold dht12_read_data
    rw [if_pos h]
    exact ⟨rfl, rfl⟩
  · intro hs hr
    unfold dht12_read_data
    rw [if_neg (by omega), if_pos hr]
    exact ⟨rfl, rfl⟩
  · intro hs hr
    unfold dht12_read_data
    rw [if_neg (by omega), if_neg (by omega)]
    by_cases hc : u8 (bus.r0 + bus.r1 + bus.r2 + bus.r3) = bus.r4 <;>
      simp [hc]

theorem C8_witness :
    sendFailBus.sendRet < 0 ∧
    ((dht12_read_data sendFailBus).1 = sendFailBus.sendRet ∧
     (dht12_read_data sendFailBus).2.2 =
       [Event.lock, Event.send [0], Event.unlock]) :=
  ⟨by decide, (C8_protocol sendFailBus).1 (by decide)⟩

/-- Claim C9: a direct read with the RAW selector returns `IIO_VAL_INT`
and writes the signed decoded value of the requested channel (humidity for
the humidity channel, temperature otherwise); the SCALE selector returns
the constant 100 without performing any bus transaction (its trace is
empty); any other selector returns `-EINVAL` and leaves the output
unchanged. -/
theorem C9_selectors (bus : Bus) (chan : ChanType) (val : Int) (mask : Nat) :
    (0 ≤ bus.sendRet → 0 ≤ bus.recvRet → bus.Wf →
      u8 (bus.r0 + bus.r1 + bus.r2 + bus.r3) = bus.r4 →
      (dht12_read_raw bus chan val IIO_CHAN_INFO_RAW).1 = IIO_VAL_INT ∧
      (dht12_read_raw bus chan val IIO_CHAN_INFO_RAW).2.1 =
        (if chan = ChanType.humidityrelative then
          (bus.r0 : Int) * 100 + bus.r1
         else (bus.r2 : Int) * 100 + bus.r3)) ∧
    ((dht12_read_raw bus chan val IIO_CHAN_INFO_SCALE).1 = IIO_VAL_INT ∧
     (dht12_read_raw bus chan val IIO_CHAN_INFO_SCALE).2.1 = 100 ∧
     (dht12_read_raw bus chan val IIO_CHAN_INFO_SCALE).2.2 = []) ∧
    (mask ≠ IIO_CHAN_INFO_RAW → mask ≠ IIO_CHAN_INFO_SCALE →
      (dht12_read_raw bus chan val mask).1 = -EINVAL ∧
      (dht12_read_raw bus chan val mask).2.1 = val) := by
  refine ⟨?_, ?_, ?_⟩
  · intro hs hr hwf hc
    obtain ⟨h0, h1, h2, h3, h4⟩ := hwf
    have he := read_data_ok bus hs hr hc
    have hlt : ¬ ((dht12_read_data bus).1 < 0) := by
      rw [he]
      omega
    unfold dht12_read_raw
    rw [he]
    simp only [if_pos, reduceIte]
    rw [if_neg (by omega : ¬ (bus.recvRet < 0))]
    refine ⟨rfl, ?_⟩
    cases chan <;> simp <;>
      exact toS16_eq_self _ (by omega) (by omega)
  · refine ⟨?_, ?_, ?_⟩ <;>
      simp [dht12_read_raw, IIO_CHAN_INFO_RAW, IIO_CHAN_INFO_SCALE]
  · intro hm1 hm2
    unfold dht12_read_raw
    rw [if_neg hm1, if_neg hm2]
    exact ⟨rfl, rfl⟩

theorem C9_witness :
    (0 ≤ goodBus.sendRet ∧ 0 ≤ goodBus.recvRet ∧ goodBus.Wf ∧
      u8 (goodBus.r0 + goodBus.r1 + goodBus.r2 + goodBus.r3) = goodBus.r4) ∧
    ((dht12_read_raw goodBus ChanType.temp 0 IIO_CHAN_INFO_RAW).1 =
       IIO_VAL_INT ∧
     (dht12_read_raw goodBus ChanType.temp 0 IIO_CHAN_INFO_RAW).2.1 =
       (if ChanType.temp = ChanType.humidityrelative then
         (goodBus.r0 : Int) * 100 + goodBus.r1
        else (goodBus.r2 : Int) * 100 + goodBus.r3)) ∧
    ((3 : Nat) ≠ IIO_CHAN_INFO_RAW ∧ (3 : Nat) ≠ IIO_CHAN_INFO_SCALE ∧
     (dht12_read_raw goodBus ChanType.temp 0 3).1 = -EINVAL) :=
  ⟨⟨by decide, by decide, by decide, by decide⟩,
   (C9_selectors goodBus ChanType.temp 0 3).1 (by decide) (by decide)
     (by decide) (by decide),
   by decide, by decide,
   ((C9_selectors goodBus ChanType.temp 0 3).2.2 (by decide) (by decide)).1⟩

/-- Claim C10: a checksum mismatch reaches the direct-read caller as
`-EIO`, the very value a bus send failure that returns `-EIO` also
produces, so the two failure classes are indistinguishable by the
returned value. -/
theorem C10_eio_ambiguity (busA busB : Bus) (chan : ChanType) (val : Int)
    (hsa : 0 ≤ busA.sendRet) (hra : 0 ≤ busA.recvRet)
    (hbad : u8 (busA.r0 + busA.r1 + busA.r2 + busA.r3) ≠ busA.r4)
    (hsb : busB.sendRet = -EIO_code) :
    (dht12_read_raw busA chan val IIO_CHAN_INFO_RAW).1 = -EIO_code ∧
    (dht12_read_raw busB chan val IIO_CHAN_INFO_RAW).1 = -EIO_code ∧
    (dht12_read_raw busA chan val IIO_CHAN_INFO_RAW).1 =
      (dht12_read_raw busB chan val IIO_CHAN_INFO_RAW).1 := by
  have ha := read_data_badchk busA hsa hra hbad
  have hb1 : busB.sendRet < 0 := by
    rw [hsb]
    norm_num [EIO_code]
  have hb := read_data_sendfail busB hb1
  have e1 := read_raw_raw_err busA chan val (by rw [ha]; norm_num [EIO_code])
  have e2 := read_raw_raw_err busB chan val (by rw [hb]; exact hb1)
  rw [e1, e2, ha, hb, hsb]
  exact ⟨rfl, rfl, rfl⟩

theorem C10_witness :
    (0 ≤ badChkBus.sendRet ∧ 0 ≤ badChkBus.recvRet ∧
     u8 (badChkBus.r0 + badChkBus.r1 + badChkBus.r2 + badChkBus.r3) ≠
       badChkBus.r4 ∧
     sendFailBus.sendRet = -EIO_code) ∧
    ((dht12_read_raw badChkBus ChanType.humidityrelative 0
        IIO_CHAN_INFO_RAW).1 = -EIO_code ∧
     (dht12_read_raw sendFailBus ChanType.humidityrelative 0
        IIO_CHAN_INFO_RAW).1 = -EIO_code ∧
     (dht12_read_raw badChkBus ChanType.humidityrelative 0
        IIO_CHAN_INFO_RAW).1 =
       (dht12_read_raw sendFailBus ChanType.humidityrelative 0
          IIO_CHAN_INFO_RAW).1) :=
  ⟨⟨by decide, by decide, by decide, by decide⟩,
   C10_eio_ambiguity badChkBus sendFailBus ChanType.humidityrelative 0
     (by decide) (by decide) (by decide) (by decide)⟩
